import Mathlib

/-!
Verification development for the reverb-eBPF multi-layer I/O tracer.

The kernel-side programs (minio_tracer.bpf.c, the fixed tracer and the
configurable by-name tracer from multilayer_io_tracer.bpf.c) and the two
user-space consumers (minio_tracer.c and multilayer_io_tracer.c) are shallowly
embedded below.  BPF hash maps become association lists, the ring buffer
reservation becomes a boolean input (true when a slot is available), and each
probe becomes a pure function from its inputs and the kernel map state to the
optionally emitted event plus the successor state.  Machine integers are
modelled as natural numbers with explicit reductions modulo 2^32 / 2^64 at the
points where the C code can overflow.
-/

namespace Reverb

/-- Reads byte i of a fixed-size, zero-initialised C character buffer:
positions beyond the populated prefix read as NUL. -/
def commByte (buf : List Nat) (i : Nat) : Nat := buf.getD i 0

/-- Lookup in a BPF hash map modelled as an association list
(bpf_map_lookup_elem). -/
def mapLookup {β : Type} (m : List (Nat × β)) (k : Nat) : Option β :=
  match m with
  | [] => none
  | p :: rest => if p.1 == k then some p.2 else mapLookup rest k

/-- Removal from a BPF hash map (bpf_map_delete_elem). -/
def mapDelete {β : Type} (m : List (Nat × β)) (k : Nat) : List (Nat × β) :=
  match m with
  | [] => []
  | p :: rest => if p.1 == k then mapDelete rest k else p :: mapDelete rest k

/-- Insert-or-replace in a BPF hash map (bpf_map_update_elem with BPF_ANY). -/
def mapUpdate {β : Type} (m : List (Nat × β)) (k : Nat) (v : β) : List (Nat × β) :=
  mapDelete m k ++ [(k, v)]

theorem mapLookup_mapDelete_self {β : Type} (m : List (Nat × β)) (k : Nat) :
    mapLookup (mapDelete m k) k = none := by
  induction m with
  | nil => rfl
  | cons p rest ih =>
    by_cases h : p.1 = k
    · simpa [mapDelete, h] using ih
    · simpa [mapDelete, mapLookup, h] using ih

theorem mapLookup_append_of_none {β : Type} (l1 l2 : List (Nat × β)) (k : Nat)
    (h : mapLookup l1 k = none) :
    mapLookup (l1 ++ l2) k = mapLookup l2 k := by
  induction l1 with
  | nil => rfl
  | cons p rest ih =>
    by_cases hp : p.1 = k
    · simp [mapLookup, hp] at h
    · simp only [mapLookup, hp, List.cons_append, if_neg, beq_iff_eq] at h ⊢
      exact ih h

theorem mapLookup_mapUpdate_self {β : Type} (m : List (Nat × β)) (k : Nat) (v : β) :
    mapLookup (mapUpdate m k v) k = some v := by
  unfold mapUpdate
  rw [mapLookup_append_of_none _ _ _ (mapLookup_mapDelete_self m k)]
  simp [mapLookup]

/-- Page alignment as computed by the probes: (count + 4095) & ~4095ULL on a
64-bit quantity. -/
def align4096 (count : Nat) : Nat :=
  let s := (count + 4095) % 2 ^ 64
  s - s % 4096

/-- Wrapping 64-bit subtraction, used for latency = now - submit_ns. -/
def u64sub (a b : Nat) : Nat := (a % 2 ^ 64 + 2 ^ 64 - b % 2 ^ 64) % 2 ^ 64

end Reverb

namespace MinioTracer

/-- Event record of minio_tracer.bpf.c (struct multilayer_io_event), shared
with the minio_tracer.c consumer.  Byte strings are byte lists, u8 flags are
booleans. -/
structure Event where
  timestamp : Nat
  pid : Nat
  tid : Nat
  layer : Nat
  event_type : Nat
  system_type : Nat
  size : Nat
  offset : Nat
  latency_ns : Nat
  dev_major : Nat
  dev_minor : Nat
  retval : Int
  inode : Nat
  request_id : Nat
  parent_request_id : Nat
  branch_id : Nat
  branch_count : Nat
  comm : List Nat
  filename : List Nat
  aligned_size : Nat
  replication_count : Nat
  block_count : Nat
  is_metadata : Bool
  is_journal : Bool
  cache_hit : Bool
  is_erasure : Bool
  erasure_data_blocks : Nat
  erasure_parity_blocks : Nat
  deriving Repr, DecidableEq

/-- The all-zero event produced by init_event's memset. -/
def init_event : Event :=
  { timestamp := 0, pid := 0, tid := 0, layer := 0, event_type := 0
    system_type := 0, size := 0, offset := 0, latency_ns := 0
    dev_major := 0, dev_minor := 0, retval := 0, inode := 0
    request_id := 0, parent_request_id := 0, branch_id := 0, branch_count := 0
    comm := [], filename := [], aligned_size := 0
    replication_count := 0, block_count := 0
    is_metadata := false, is_journal := false, cache_hit := false
    is_erasure := false, erasure_data_blocks := 0, erasure_parity_blocks := 0 }

instance : Inhabited Event := ⟨init_event⟩

/-- Request context of minio_tracer.bpf.c (struct request_context). -/
structure RequestContext where
  app_request_id : Nat
  parent_request_id : Nat
  original_size : Nat
  timestamp : Nat
  system_type : Nat
  branch_count : Nat
  is_minio_op : Bool
  op_type : Nat
  object_name : List Nat
  deriving Repr, DecidableEq

/-- Branch record of minio_tracer.bpf.c (struct request_branch). -/
structure RequestBranch where
  parent_request_id : Nat
  branch_id : Nat
  total_branches : Nat
  branch_timestamp : Nat
  deriving Repr, DecidableEq

/-- Kernel map state of minio_tracer.bpf.c: the request-context table, the bio
timing table and the branch table. -/
structure KState where
  request_tracking : List (Nat × RequestContext)
  io_start_times : List (Nat × Nat)
  request_branches : List (Nat × RequestBranch)
  deriving Repr, DecidableEq

/-- Classifier of minio_tracer.bpf.c: target iff comm starts with the bytes
of the word minio (109 105 110 105 111) followed by NUL or a space; a comm
starting with the twelve bytes of the tracer name is rejected first. -/
def is_minio_process (comm : List Nat) : Bool :=
  let c := Reverb.commByte comm
  if c 0 == 109 && c 1 == 105 && c 2 == 110 && c 3 == 105 && c 4 == 111 &&
      c 5 == 95 && c 6 == 116 && c 7 == 114 && c 8 == 97 && c 9 == 99 &&
      c 10 == 101 && c 11 == 114 then
    false
  else if c 0 == 109 && c 1 == 105 && c 2 == 110 && c 3 == 105 && c 4 == 111 then
    c 5 == 0 || c 5 == 32
  else
    false

/-- Request-id synthesis: (pid_tgid << 32) | (ts & 0xFFFFFFFF) on u64. -/
def generate_request_id (ts pid_tgid : Nat) : Nat :=
  ((pid_tgid <<< 32) % 2 ^ 64) ||| (ts % 2 ^ 32)

/-- Application-layer write probe (tracepoint sys_enter_write).  Inputs:
current map state, pid_tgid, the ktime read inside generate_request_id, the
ktime stored into the context, the syscall count argument, the current comm,
and whether the ring reservation succeeds.  Returns the emitted event (if
any) and the successor state. -/
def trace_minio_write (st : KState) (pid_tgid ts_id ts_ctx count : Nat)
    (comm : List Nat) (reserveOk : Bool) : Option Event × KState :=
  let pid := (pid_tgid / 2 ^ 32) % 2 ^ 32
  if !(is_minio_process comm) then (none, st)
  else
    let existing := Reverb.mapLookup st.request_tracking pid_tgid
    let req_ctx : RequestContext :=
      match existing with
      | some ex =>
        if ex.parent_request_id != 0 then
          { ex with branch_count := (ex.branch_count + 1) % 2 ^ 32 }
        else
          { app_request_id := generate_request_id ts_id pid_tgid
            parent_request_id := 0, original_size := count, timestamp := ts_ctx
            system_type := 1, branch_count := 0, is_minio_op := true
            op_type := 1, object_name := [] }
      | none =>
          { app_request_id := generate_request_id ts_id pid_tgid
            parent_request_id := 0, original_size := count, timestamp := ts_ctx
            system_type := 1, branch_count := 0, is_minio_op := true
            op_type := 1, object_name := [] }
    let st1 : KState :=
      { st with
        request_tracking := Reverb.mapUpdate st.request_tracking pid_tgid req_ctx
        io_start_times := Reverb.mapUpdate st.io_start_times pid_tgid req_ctx.timestamp }
    if !reserveOk then (none, st1)
    else
      (some { init_event with
          timestamp := req_ctx.timestamp, pid := pid, tid := pid_tgid % 2 ^ 32
          layer := 1, event_type := 110, system_type := 1, size := count
          request_id := req_ctx.app_request_id
          parent_request_id := req_ctx.parent_request_id
          branch_id := req_ctx.branch_count
          aligned_size := count, comm := comm }, st1)

/-- Application-layer read probe (tracepoint sys_enter_read); identical to the
write probe except for event type 111 and op_type 0. -/
def trace_minio_read (st : KState) (pid_tgid ts_id ts_ctx count : Nat)
    (comm : List Nat) (reserveOk : Bool) : Option Event × KState :=
  let pid := (pid_tgid / 2 ^ 32) % 2 ^ 32
  if !(is_minio_process comm) then (none, st)
  else
    let existing := Reverb.mapLookup st.request_tracking pid_tgid
    let req_ctx : RequestContext :=
      match existing with
      | some ex =>
        if ex.parent_request_id != 0 then
          { ex with branch_count := (ex.branch_count + 1) % 2 ^ 32 }
        else
          { app_request_id := generate_request_id ts_id pid_tgid
            parent_request_id := 0, original_size := count, timestamp := ts_ctx
            system_type := 1, branch_count := 0, is_minio_op := true
            op_type := 0, object_name := [] }
      | none =>
          { app_request_id := generate_request_id ts_id pid_tgid
            parent_request_id := 0, original_size := count, timestamp := ts_ctx
            system_type := 1, branch_count := 0, is_minio_op := true
            op_type := 0, object_name := [] }
    let st1 : KState :=
      { st with
        request_tracking := Reverb.mapUpdate st.request_tracking pid_tgid req_ctx
        io_start_times := Reverb.mapUpdate st.io_start_times pid_tgid req_ctx.timestamp }
    if !reserveOk then (none, st1)
    else
      (some { init_event with
          timestamp := req_ctx.timestamp, pid := pid, tid := pid_tgid % 2 ^ 32
          layer := 1, event_type := 111, system_type := 1, size := count
          request_id := req_ctx.app_request_id
          parent_request_id := req_ctx.parent_request_id
          branch_id := req_ctx.branch_count
          aligned_size := count, comm := comm }, st1)

/-- View of the struct file pointer chased by the VFS probes: the inode number
if both the file and its inode pointer are non-null. -/
structure FileInfo where
  inode : Option Nat
  deriving Repr, DecidableEq

/-- Reads the inode defensively, exactly like the probes: zero when the file
pointer or the inode pointer is null. -/
def readInode (file : Option FileInfo) : Nat :=
  match file with
  | none => 0
  | some f =>
    match f.inode with
    | none => 0
    | some ino => ino

/-- View of the struct bio read by the device probes. -/
structure Bio where
  addr : Nat
  bi_size : Nat
  bi_sector : Nat
  bd_dev : Option Nat
  deriving Repr, DecidableEq

/-- OS-layer read probe (kprobe vfs_read).  ts_branch is the ktime mixed into
the branch key, ts_branch2 the branch record timestamp, ts_ev the event
timestamp.  Returns early - emitting nothing - when the classifier rejects the
comm or the context lookup fails. -/
def trace_vfs_read_correlated (st : KState) (pid_tgid ts_branch ts_branch2 ts_ev : Nat)
    (file : Option FileInfo) (count : Nat) (comm : List Nat) (reserveOk : Bool) :
    Option Event × KState :=
  if !(is_minio_process comm) then (none, st)
  else
    match Reverb.mapLookup st.request_tracking pid_tgid with
    | none => (none, st)
    | some req_ctx =>
      let branch_key := (pid_tgid ^^^ ts_branch) % 2 ^ 64
      match Reverb.mapLookup st.request_branches branch_key with
      | some _ =>
        -- branch variable stays zero-initialised; the context is not touched
        let st1 := st
        if !reserveOk then (none, st1)
        else
          (some { init_event with
              timestamp := ts_ev, pid := (pid_tgid / 2 ^ 32) % 2 ^ 32
              tid := pid_tgid % 2 ^ 32, layer := 3, event_type := 303
              size := count, request_id := req_ctx.app_request_id
              parent_request_id := req_ctx.parent_request_id
              branch_id := 0, branch_count := req_ctx.branch_count
              inode := readInode file
              aligned_size := Reverb.align4096 count, comm := comm }, st1)
      | none =>
        let branch : RequestBranch :=
          { parent_request_id := req_ctx.app_request_id
            branch_id := req_ctx.branch_count
            total_branches := 1, branch_timestamp := ts_branch2 }
        let req_ctx1 := { req_ctx with branch_count := (req_ctx.branch_count + 1) % 2 ^ 32 }
        let st1 : KState :=
          { st with
            request_tracking := Reverb.mapUpdate st.request_tracking pid_tgid req_ctx1
            request_branches := Reverb.mapUpdate st.request_branches branch_key branch }
        if !reserveOk then (none, st1)
        else
          (some { init_event with
              timestamp := ts_ev, pid := (pid_tgid / 2 ^ 32) % 2 ^ 32
              tid := pid_tgid % 2 ^ 32, layer := 3, event_type := 303
              size := count, request_id := req_ctx1.app_request_id
              parent_request_id := req_ctx1.parent_request_id
              branch_id := branch.branch_id, branch_count := req_ctx1.branch_count
              inode := readInode file
              aligned_size := Reverb.align4096 count, comm := comm }, st1)

/-- OS-layer write probe (kprobe vfs_write).  Unlike the read probe it
installs a fresh branch record unconditionally. -/
def trace_vfs_write_correlated (st : KState) (pid_tgid ts_branch ts_branch2 ts_ev : Nat)
    (file : Option FileInfo) (count : Nat) (comm : List Nat) (reserveOk : Bool) :
    Option Event × KState :=
  if !(is_minio_process comm) then (none, st)
  else
    match Reverb.mapLookup st.request_tracking pid_tgid with
    | none => (none, st)
    | some req_ctx =>
      let branch_key := (pid_tgid ^^^ ts_branch) % 2 ^ 64
      let branch : RequestBranch :=
        { parent_request_id := req_ctx.app_request_id
          branch_id := req_ctx.branch_count
          total_branches := 1, branch_timestamp := ts_branch2 }
      let req_ctx1 := { req_ctx with branch_count := (req_ctx.branch_count + 1) % 2 ^ 32 }
      let st1 : KState :=
        { st with
          request_tracking := Reverb.mapUpdate st.request_tracking pid_tgid req_ctx1
          request_branches := Reverb.mapUpdate st.request_branches branch_key branch }
      if !reserveOk then (none, st1)
      else
        (some { init_event with
            timestamp := ts_ev, pid := (pid_tgid / 2 ^ 32) % 2 ^ 32
            tid := pid_tgid % 2 ^ 32, layer := 3, event_type := 304
            size := count, request_id := req_ctx1.app_request_id
            parent_request_id := req_ctx1.parent_request_id
            branch_id := branch.branch_id, branch_count := req_ctx1.branch_count
            inode := readInode file
            aligned_size := Reverb.align4096 count, comm := comm }, st1)

/-- Filesystem-layer sync probe (kprobe vfs_fsync_range): emits a metadata
event even when the context lookup fails (correlation fields stay zero). -/
def trace_fs_sync_correlated (st : KState) (pid_tgid ts_ev : Nat)
    (comm : List Nat) (reserveOk : Bool) : Option Event × KState :=
  if !(is_minio_process comm) then (none, st)
  else
    let req_ctx := Reverb.mapLookup st.request_tracking pid_tgid
    if !reserveOk then (none, st)
    else
      let base : Event :=
        { init_event with
            timestamp := ts_ev, pid := (pid_tgid / 2 ^ 32) % 2 ^ 32
            tid := pid_tgid % 2 ^ 32, layer := 4, event_type := 401
            size := 0, aligned_size := 0, is_metadata := true, comm := comm }
      match req_ctx with
      | some ctx =>
        (some { base with
            request_id := ctx.app_request_id
            parent_request_id := ctx.parent_request_id
            branch_id := ctx.branch_count }, st)
      | none => (some base, st)

/-- Device-layer submit probe (kprobe submit_bio).  The timing record is
installed only after a successful ring submission. -/
def trace_bio_submit_correlated (st : KState) (pid_tgid ts_ev ts_start : Nat)
    (comm : List Nat) (bio : Option Bio) (reserveOk : Bool) : Option Event × KState :=
  if !(is_minio_process comm) then (none, st)
  else
    match bio with
    | none => (none, st)
    | some b =>
      let req_ctx := Reverb.mapLookup st.request_tracking pid_tgid
      if !reserveOk then (none, st)
      else
        let base : Event :=
          { init_event with
              timestamp := ts_ev, pid := (pid_tgid / 2 ^ 32) % 2 ^ 32
              tid := pid_tgid % 2 ^ 32, layer := 5, event_type := 501
              size := b.bi_size, aligned_size := b.bi_size
              offset := (b.bi_sector * 512) % 2 ^ 64
              is_journal := b.bi_size ≤ 8192
              dev_major := (match b.bd_dev with | some d => (d / 2 ^ 20) % 2 ^ 32 | none => 0)
              dev_minor := (match b.bd_dev with | some d => d % 2 ^ 20 | none => 0)
              comm := comm }
        let ev : Event :=
          match req_ctx with
          | some ctx =>
            { base with
                request_id := ctx.app_request_id
                parent_request_id := ctx.parent_request_id
                branch_id := ctx.branch_count }
          | none => base
        (some ev,
         { st with io_start_times := Reverb.mapUpdate st.io_start_times b.addr ts_start })

/-- Device-layer completion probe (kprobe bio_endio): computes the latency
from the timing record and deletes the record on both the submit path and the
reservation-failure path.  The emitted event leaves pid, tid, comm and
request_id at their zero initialisation. -/
def trace_bio_complete_correlated (st : KState) (bio : Option Bio)
    (ts_lat ts_ev : Nat) (reserveOk : Bool) : Option Event × KState :=
  match bio with
  | none => (none, st)
  | some b =>
    match Reverb.mapLookup st.io_start_times b.addr with
    | none => (none, st)
    | some t0 =>
      let latency := Reverb.u64sub ts_lat t0
      let st1 : KState := { st with io_start_times := Reverb.mapDelete st.io_start_times b.addr }
      if !reserveOk then (none, st1)
      else
        (some { init_event with
            timestamp := ts_ev, layer := 5, event_type := 502
            latency_ns := latency, size := b.bi_size, aligned_size := b.bi_size
            is_journal := b.bi_size ≤ 8192 }, st1)

end MinioTracer

namespace FixedTracer

/-- Event record of the fixed tracer (first program of
multilayer_io_tracer.bpf.c): no branch or parent fields. -/
structure Event where
  timestamp : Nat
  pid : Nat
  tid : Nat
  layer : Nat
  event_type : Nat
  system_type : Nat
  size : Nat
  offset : Nat
  latency_ns : Nat
  dev_major : Nat
  dev_minor : Nat
  retval : Int
  inode : Nat
  request_id : Nat
  comm : List Nat
  filename : List Nat
  aligned_size : Nat
  replication_count : Nat
  block_count : Nat
  is_metadata : Bool
  is_journal : Bool
  cache_hit : Bool
  deriving Repr, DecidableEq

/-- The all-zero event produced by init_event's memset. -/
def init_event : Event :=
  { timestamp := 0, pid := 0, tid := 0, layer := 0, event_type := 0
    system_type := 0, size := 0, offset := 0, latency_ns := 0
    dev_major := 0, dev_minor := 0, retval := 0, inode := 0, request_id := 0
    comm := [], filename := [], aligned_size := 0
    replication_count := 0, block_count := 0
    is_metadata := false, is_journal := false, cache_hit := false }

instance : Inhabited Event := ⟨init_event⟩

/-- Request context of the fixed tracer. -/
structure RequestContext where
  app_request_id : Nat
  original_size : Nat
  timestamp : Nat
  system_type : Nat
  deriving Repr, DecidableEq

/-- Kernel map state of the fixed tracer. -/
structure KState where
  request_tracking : List (Nat × RequestContext)
  io_start_times : List (Nat × Nat)
  deriving Repr, DecidableEq

/-- OS-layer read probe of the fixed tracer (kprobe vfs_read): no process
filter and no early return on a missing context - the event is emitted with
request_id left zero when the lookup fails. -/
def trace_vfs_read (st : KState) (pid_tgid ts_ev : Nat)
    (file : Option MinioTracer.FileInfo) (count : Nat) (comm : List Nat)
    (reserveOk : Bool) : Option Event × KState :=
  let req_ctx := Reverb.mapLookup st.request_tracking pid_tgid
  if !reserveOk then (none, st)
  else
    let base : Event :=
      { init_event with
          timestamp := ts_ev, pid := (pid_tgid / 2 ^ 32) % 2 ^ 32
          tid := pid_tgid % 2 ^ 32, layer := 3, event_type := 303
          size := count, inode := MinioTracer.readInode file
          aligned_size := Reverb.align4096 count, comm := comm }
    let ev : Event :=
      match req_ctx with
      | some ctx => { base with request_id := ctx.app_request_id, system_type := ctx.system_type }
      | none => base
    (some ev, st)

/-- Device-layer completion probe of the fixed tracer (kprobe bio_endio);
same control flow as the correlated version. -/
def trace_bio_complete (st : KState) (bio : Option MinioTracer.Bio)
    (ts_lat ts_ev : Nat) (reserveOk : Bool) : Option Event × KState :=
  match bio with
  | none => (none, st)
  | some b =>
    match Reverb.mapLookup st.io_start_times b.addr with
    | none => (none, st)
    | some t0 =>
      let latency := Reverb.u64sub ts_lat t0
      let st1 : KState := { st with io_start_times := Reverb.mapDelete st.io_start_times b.addr }
      if !reserveOk then (none, st1)
      else
        (some { init_event with
            timestamp := ts_ev, layer := 5, event_type := 502
            latency_ns := latency, size := b.bi_size
            aligned_size := b.bi_size }, st1)

end FixedTracer

namespace ByNameTracer

/-- Configuration record of the second program of multilayer_io_tracer.bpf.c
(struct minio_config): trace_mode 0 = off, 1 = by name, 2 = by pid,
3 = all. -/
structure MinioConfig where
  trace_mode : Nat
  trace_erasure : Nat
  trace_metadata : Nat
  verbose : Nat
  deriving Repr, DecidableEq

/-- Classifier of the configurable tracer: in by-name mode it scans offsets
0..10 of comm for the five bytes of the word minio, with no exclusion of the
tracer's own name. -/
def is_minio_process (config : Option MinioConfig) (minio_pids : List (Nat × Nat))
    (comm : List Nat) (pid : Nat) : Bool :=
  match config with
  | none => false
  | some cfg =>
    if cfg.trace_mode == 0 then false
    else if cfg.trace_mode == 3 then true
    else if cfg.trace_mode == 2 then (Reverb.mapLookup minio_pids pid).isSome
    else if cfg.trace_mode == 1 then
      (List.range 11).any fun i =>
        decide (i + 4 < 16) &&
          (Reverb.commByte comm i == 109 && Reverb.commByte comm (i + 1) == 105 &&
           Reverb.commByte comm (i + 2) == 110 && Reverb.commByte comm (i + 3) == 105 &&
           Reverb.commByte comm (i + 4) == 111)
    else false

end ByNameTracer

namespace SpecModel

/-- Modelled from the spec: comm matches the configured substring (minio) -
the five bytes of the word minio occur somewhere inside the 16-byte command
buffer. -/
def matches_substring (comm : List Nat) : Bool :=
  (List.range 12).any fun i =>
    Reverb.commByte comm i == 109 && Reverb.commByte comm (i + 1) == 105 &&
    Reverb.commByte comm (i + 2) == 110 && Reverb.commByte comm (i + 3) == 105 &&
    Reverb.commByte comm (i + 4) == 111

/-- Modelled from the spec: comm matches the tracer's own binary name - the
16-byte buffer equals the bytes of minio_tracer followed by NUL padding. -/
def matches_tracer_name (comm : List Nat) : Bool :=
  (List.range 16).all fun i =>
    Reverb.commByte comm i ==
      Reverb.commByte [109, 105, 110, 105, 111, 95, 116, 114, 97, 99, 101, 114] i

end SpecModel

namespace MinioConsumer

/-- Capacity of the flow table of minio_tracer.c (MAX_REQUESTS). -/
def MAX_REQUESTS : Nat := 10000

/-- Flow record of minio_tracer.c (struct request_flow). -/
structure Flow where
  request_id : Nat
  parent_request_id : Nat
  start_time : Nat
  end_time : Nat
  total_branches : Nat
  completed_branches : Nat
  app_bytes : Nat
  storage_bytes : Nat
  os_bytes : Nat
  fs_bytes : Nat
  device_bytes : Nat
  vfs_reads : Nat
  vfs_writes : Nat
  bio_submits : Nat
  metadata_ops : Nat
  journal_ops : Nat
  op_type : Nat
  object_name : List Nat
  erasure_branches : Nat
  replication_factor : Nat
  deriving Repr, DecidableEq

/-- The all-zero flow record produced by memset. -/
def Flow.zero : Flow :=
  { request_id := 0, parent_request_id := 0, start_time := 0, end_time := 0
    total_branches := 0, completed_branches := 0
    app_bytes := 0, storage_bytes := 0, os_bytes := 0, fs_bytes := 0
    device_bytes := 0, vfs_reads := 0, vfs_writes := 0, bio_submits := 0
    metadata_ops := 0, journal_ops := 0, op_type := 0, object_name := []
    erasure_branches := 0, replication_factor := 0 }

instance : Inhabited Flow := ⟨Flow.zero⟩

/-- A freshly created flow record: zeroed except for its request id
(start_time is set to 0 explicitly). -/
def blankFlow (id : Nat) : Flow := { Flow.zero with request_id := id }

/-- The linear search loop at the top of find_or_create_request. -/
def findRequestIdx (reqs : List Flow) (id : Nat) : Option Nat :=
  match reqs with
  | [] => none
  | r :: rest =>
    if r.request_id == id then some 0
    else (findRequestIdx rest id).map (· + 1)

/-- find_or_create_request of minio_tracer.c: returns the index of the
matching flow record, appending a fresh one when absent and the table still
has room; returns none (NULL) when the table is full. -/
def find_or_create_request (reqs : List Flow) (id : Nat) : Option (Nat × List Flow) :=
  match findRequestIdx reqs id with
  | some i => some (i, reqs)
  | none =>
    if reqs.length < MAX_REQUESTS then some (reqs.length, reqs ++ [blankFlow id])
    else none

/-- Common shape of the two callers of find_or_create_request: locate or
create the record for the id, then mutate it in place with g. -/
def table_step (reqs : List Flow) (id : Nat) (g : Flow → Flow) : List Flow :=
  match find_or_create_request reqs id with
  | none => reqs
  | some (i, rs) => rs.set i (g (rs.getD i Flow.zero))

/-- First half of update_request_flow's body: parent link, timestamps and
the branch-count maximum. -/
def update_flow_common (e : MinioTracer.Event) (req0 : Flow) : Flow :=
  let req1 :=
    if e.parent_request_id != 0 && req0.parent_request_id == 0 then
      { req0 with parent_request_id := e.parent_request_id }
    else req0
  let req2 :=
    if req1.start_time == 0 || e.timestamp < req1.start_time then
      { req1 with start_time := e.timestamp }
    else req1
  let req3 :=
    if req2.end_time < e.timestamp then { req2 with end_time := e.timestamp } else req2
  if req3.total_branches < e.branch_count then
    { req3 with total_branches := e.branch_count }
  else req3

/-- Second half of update_request_flow's body: the per-layer switch. -/
def update_flow_layer (e : MinioTracer.Event) (req4 : Flow) : Flow :=
  match e.layer with
  | 1 =>
    let r := { req4 with app_bytes := req4.app_bytes + e.size }
    let r := if e.event_type == 110 then { r with op_type := 1 } else r
    let r := if e.event_type == 111 then { r with op_type := 0 } else r
    if Reverb.commByte e.filename 0 != 0 && Reverb.commByte r.object_name 0 == 0 then
      { r with object_name := e.filename.take 255 }
    else r
  | 2 =>
    let r := { req4 with storage_bytes := req4.storage_bytes + e.size }
    let r := if e.is_metadata then { r with metadata_ops := (r.metadata_ops + 1) % 2 ^ 32 } else r
    let r := if e.is_erasure then { r with erasure_branches := (r.erasure_branches + 1) % 2 ^ 32 } else r
    if e.replication_count > 0 then { r with replication_factor := e.replication_count } else r
  | 3 =>
    let r := { req4 with
      os_bytes := req4.os_bytes + (if e.aligned_size != 0 then e.aligned_size else e.size) }
    let r := if e.event_type == 303 then { r with vfs_reads := (r.vfs_reads + 1) % 2 ^ 32 } else r
    if e.event_type == 304 then { r with vfs_writes := (r.vfs_writes + 1) % 2 ^ 32 } else r
  | 4 =>
    let r := { req4 with fs_bytes := req4.fs_bytes + e.size }
    if e.is_journal then { r with journal_ops := (r.journal_ops + 1) % 2 ^ 32 } else r
  | 5 =>
    let r := { req4 with device_bytes := req4.device_bytes + e.size }
    if e.event_type == 501 then { r with bio_submits := (r.bio_submits + 1) % 2 ^ 32 } else r
  | _ => req4

/-- Body of update_request_flow after the record has been obtained. -/
def update_flow_fields (e : MinioTracer.Event) (req0 : Flow) : Flow :=
  update_flow_layer e (update_flow_common e req0)

/-- update_request_flow of minio_tracer.c. -/
def update_request_flow (reqs : List Flow) (e : MinioTracer.Event) : List Flow :=
  table_step reqs e.request_id (update_flow_fields e)

/-- The completed_branches increment performed on DEV_BIO_COMPLETE events. -/
def inc_completed (f : Flow) : Flow :=
  { f with completed_branches := (f.completed_branches + 1) % 2 ^ 32 }

/-- handle_event of minio_tracer.c, restricted to its state effects: the
correlation update runs when correlation mode is on, and the
completed-branches increment runs unconditionally on event type 502 at the
device layer (it uses find_or_create_request as well). -/
def handle_event (correlation_mode : Bool) (reqs : List Flow)
    (e : MinioTracer.Event) : List Flow :=
  let reqs1 := if correlation_mode then update_request_flow reqs e else reqs
  if e.event_type == 502 && e.layer == 5 then
    table_step reqs1 e.request_id inc_completed
  else reqs1

/-- The consumer loop folded over a finite trace of delivered events,
starting from the empty flow table. -/
def process_events (correlation_mode : Bool) (es : List MinioTracer.Event) : List Flow :=
  es.foldl (handle_event correlation_mode) []

/-- Number of DEV_BIO_COMPLETE deliveries carrying a given request id in a
trace: the quantity that handle_event accumulates into completed_branches. -/
def completions_for (id : Nat) (es : List MinioTracer.Event) : Nat :=
  (es.filter (fun e => e.event_type == 502 && e.layer == 5 && e.request_id == id)).length

/-- Index-wise distinctness of the request ids stored in the flow table. -/
def IdsDistinct (reqs : List Flow) : Prop :=
  ∀ i j, i < reqs.length → j < reqs.length → i ≠ j →
    (reqs.getD i Flow.zero).request_id ≠ (reqs.getD j Flow.zero).request_id

/-- Invariant tying a flow table to the trace that produced it: the table is
bounded, ids are distinct, every record's completed_branches equals the
number of bio completions delivered for its id, and every id ever delivered
is either present or was refused by a full table. -/
def TableInv (es : List MinioTracer.Event) (reqs : List Flow) : Prop :=
  reqs.length ≤ MAX_REQUESTS ∧ IdsDistinct reqs ∧
  (∀ i, i < reqs.length →
    (reqs.getD i Flow.zero).completed_branches =
      completions_for (reqs.getD i Flow.zero).request_id es % 2 ^ 32) ∧
  (∀ ev ∈ es, (findRequestIdx reqs ev.request_id).isSome = true ∨
    reqs.length = MAX_REQUESTS)

end MinioConsumer

namespace MultiConsumer

/-- Capacity of the request table of multilayer_io_tracer.c (MAX_REQUESTS). -/
def MAX_REQUESTS : Nat := 10000

/-- Per-layer statistics of multilayer_io_tracer.c (struct layer_stats).  The
amplification_factor double is computed only inside the summary printer and
is modelled by headline_amplification below. -/
structure LayerStats where
  total_events : Nat
  total_bytes : Nat
  aligned_bytes : Nat
  metadata_ops : Nat
  journal_ops : Nat
  cache_hits : Nat
  cache_misses : Nat
  total_latency : Nat
  deriving Repr, DecidableEq

/-- The zero statistics record. -/
def LayerStats.zero : LayerStats :=
  { total_events := 0, total_bytes := 0, aligned_bytes := 0, metadata_ops := 0
    journal_ops := 0, cache_hits := 0, cache_misses := 0, total_latency := 0 }

instance : Inhabited LayerStats := ⟨LayerStats.zero⟩

/-- Per-request record of multilayer_io_tracer.c (struct request_stats). -/
structure RequestStat where
  request_id : Nat
  app_size : Nat
  storage_service_size : Nat
  os_size : Nat
  fs_size : Nat
  device_size : Nat
  replication_factor : Nat
  journal_blocks : Nat
  total_amplification : Nat
  deriving Repr, DecidableEq

/-- The zero request record. -/
def RequestStat.zero : RequestStat :=
  { request_id := 0, app_size := 0, storage_service_size := 0, os_size := 0
    fs_size := 0, device_size := 0, replication_factor := 0
    journal_blocks := 0, total_amplification := 0 }

instance : Inhabited RequestStat := ⟨RequestStat.zero⟩

/-- Consumer state: the stats array (indexed by layer 0..5) and the request
table.  The consumer's io_event struct coincides with the fixed tracer's
event record, so FixedTracer.Event is reused here. -/
structure UState where
  stats : Nat → LayerStats
  requests : List RequestStat

/-- The linear search loop inside update_stats's correlation block. -/
def findStatIdx (reqs : List RequestStat) (id : Nat) : Option Nat :=
  match reqs with
  | [] => none
  | r :: rest =>
    if r.request_id == id then some 0
    else (findStatIdx rest id).map (· + 1)

/-- The per-layer switch of update_stats's correlation block. -/
def statAddLayer (e : FixedTracer.Event) (r : RequestStat) : RequestStat :=
  match e.layer with
  | 1 => { r with app_size := r.app_size + e.size }
  | 2 =>
    let r1 := { r with storage_service_size := r.storage_service_size + e.size }
    if e.replication_count > 0 then { r1 with replication_factor := e.replication_count } else r1
  | 3 => { r with os_size := r.os_size + (if e.aligned_size != 0 then e.aligned_size else e.size) }
  | 4 =>
    let r1 := { r with fs_size := r.fs_size + e.size }
    if e.is_journal then { r1 with journal_blocks := r1.journal_blocks + e.block_count } else r1
  | 5 => { r with device_size := r.device_size + e.size }
  | _ => r

/-- update_stats of multilayer_io_tracer.c: events with layer above 5 are
ignored, per-layer statistics are accumulated, and the correlation block runs
only when correlation mode is on and request_id is non-zero (new records are
created only for application-layer events while the table has room). -/
def update_stats (correlation_mode : Bool) (u : UState) (e : FixedTracer.Event) : UState :=
  if 5 < e.layer then u
  else
    let s := u.stats e.layer
    let s1 : LayerStats :=
      { total_events := s.total_events + 1
        total_bytes := s.total_bytes + e.size
        aligned_bytes := s.aligned_bytes + (if e.aligned_size != 0 then e.aligned_size else e.size)
        metadata_ops := s.metadata_ops + (if e.is_metadata then 1 else 0)
        journal_ops := s.journal_ops + (if e.is_journal then 1 else 0)
        cache_hits := s.cache_hits + (if e.cache_hit then 1 else 0)
        cache_misses := s.cache_misses + (if e.event_type == 306 then 1 else 0)
        total_latency := s.total_latency + e.latency_ns }
    let u1 : UState := { u with stats := fun j => if j = e.layer then s1 else u.stats j }
    if correlation_mode && e.request_id != 0 then
      match findStatIdx u1.requests e.request_id with
      | some i =>
        { u1 with requests := u1.requests.set i (statAddLayer e (u1.requests.getD i RequestStat.zero)) }
      | none =>
        if u1.requests.length < MAX_REQUESTS && e.layer == 1 then
          { u1 with requests :=
              u1.requests ++ [{ RequestStat.zero with request_id := e.request_id, app_size := e.size }] }
        else u1
    else u1

/-- The fallback chain computing final_bytes in print_amplification_summary:
device total bytes, else filesystem total bytes, else OS aligned bytes. -/
def final_bytes (stats : Nat → LayerStats) : Nat :=
  let f0 := (stats 5).total_bytes
  let f1 := if f0 == 0 then (stats 4).total_bytes else f0
  if f1 == 0 then (stats 3).aligned_bytes else f1

/-- The headline TOTAL AMPLIFICATION ratio printed by
print_amplification_summary: printed only when application bytes and the
final-bytes fallback are both positive. -/
def headline_amplification (stats : Nat → LayerStats) : Option ℚ :=
  if 0 < (stats 1).total_bytes then
    if 0 < final_bytes stats then
      some ((final_bytes stats : ℚ) / ((stats 1).total_bytes : ℚ))
    else none
  else none

end MultiConsumer

namespace Examples

/-- A DEV_BIO_COMPLETE delivery as produced by trace_bio_complete_correlated:
request_id, comm, pid and branch fields are all left at zero. -/
def bioCompleteEvent : MinioTracer.Event :=
  { MinioTracer.init_event with
      timestamp := 50, layer := 5, event_type := 502, latency_ns := 10
      size := 4096, aligned_size := 4096, is_journal := true }

/-- A second copy of the bio completion delivery, used by a different claim
so that the two developments stay independent. -/
def bioCompleteEventB : MinioTracer.Event :=
  { MinioTracer.init_event with
      timestamp := 60, layer := 5, event_type := 502, latency_ns := 12
      size := 8192, aligned_size := 8192, is_journal := true }

/-- A final statistics state with 100 application bytes, 4096 filesystem
bytes and zero device bytes. -/
def statsFsOnly : Nat → MultiConsumer.LayerStats := fun j =>
  if j = 1 then { MultiConsumer.LayerStats.zero with total_bytes := 100 }
  else if j = 4 then { MultiConsumer.LayerStats.zero with total_bytes := 4096 }
  else MultiConsumer.LayerStats.zero

/-- A final statistics state with positive application and device bytes. -/
def statsDev : Nat → MultiConsumer.LayerStats := fun j =>
  if j = 1 then { MultiConsumer.LayerStats.zero with total_bytes := 100 }
  else if j = 5 then { MultiConsumer.LayerStats.zero with total_bytes := 200 }
  else MultiConsumer.LayerStats.zero

/-- A live request context with no parent and branch count zero. -/
def ctxA : MinioTracer.RequestContext :=
  { app_request_id := 77, parent_request_id := 0, original_size := 10
    timestamp := 1, system_type := 1, branch_count := 0
    is_minio_op := true, op_type := 1, object_name := [] }

/-- A kernel state holding ctxA for pid_tgid 5. -/
def stA : MinioTracer.KState := ⟨[(5, ctxA)], [], []⟩

/-- An OS-layer VFS read delivery whose request_id is zero (context lookup
had failed on the kernel side). -/
def osReadZeroId : MinioTracer.Event :=
  { MinioTracer.init_event with
      timestamp := 40, layer := 3, event_type := 303, size := 100
      aligned_size := 4096 }

/-- A filesystem sync delivery with request_id zero, for the multilayer
consumer. -/
def fsEventZeroId : FixedTracer.Event :=
  { FixedTracer.init_event with
      timestamp := 30, layer := 4, event_type := 401, is_metadata := true }

/-- An empty multilayer consumer state. -/
def u0 : MultiConsumer.UState :=
  { stats := fun _ => MultiConsumer.LayerStats.zero, requests := [] }

/-- An application-layer PUT delivery with a non-zero request id. -/
def appPutEvent : MinioTracer.Event :=
  { MinioTracer.init_event with
      timestamp := 20, layer := 1, event_type := 110, size := 100
      aligned_size := 100, request_id := 77 }

end Examples

section Claims

/-- C1 counterexample: the comm minio2 (bytes 109 105 110 105 111 50)
contains the configured substring minio and is not the tracer's own binary
name, yet is_minio_process rejects it, so the claimed iff fails. -/
theorem C1_counterexample :
    SpecModel.matches_substring [109, 105, 110, 105, 111, 50] = true ∧
    SpecModel.matches_tracer_name [109, 105, 110, 105, 111, 50] = false ∧
    MinioTracer.is_minio_process [109, 105, 110, 105, 111, 50] = false ∧
    ¬ (MinioTracer.is_minio_process [109, 105, 110, 105, 111, 50] =
        (SpecModel.matches_substring [109, 105, 110, 105, 111, 50] &&
         !SpecModel.matches_tracer_name [109, 105, 110, 105, 111, 50])) := by
  decide

/-- Helper characterisation of the minio_tracer.bpf.c classifier: it accepts
exactly the comms that begin with the bytes of minio followed by NUL or a
space (the explicit minio_tracer exclusion is subsumed, since the tracer name
has an underscore byte at position 5). -/
theorem is_minio_process_eq (comm : List Nat) :
    MinioTracer.is_minio_process comm =
      ((Reverb.commByte comm 0 == 109 && Reverb.commByte comm 1 == 105 &&
        Reverb.commByte comm 2 == 110 && Reverb.commByte comm 3 == 105 &&
        Reverb.commByte comm 4 == 111) &&
       (Reverb.commByte comm 5 == 0 || Reverb.commByte comm 5 == 32)) := by
  unfold MinioTracer.is_minio_process
  by_cases hA :
      (Reverb.commByte comm 0 == 109 && Reverb.commByte comm 1 == 105 &&
       Reverb.commByte comm 2 == 110 && Reverb.commByte comm 3 == 105 &&
       Reverb.commByte comm 4 == 111 && Reverb.commByte comm 5 == 95 &&
       Reverb.commByte comm 6 == 116 && Reverb.commByte comm 7 == 114 &&
       Reverb.commByte comm 8 == 97 && Reverb.commByte comm 9 == 99 &&
       Reverb.commByte comm 10 == 101 && Reverb.commByte comm 11 == 114) = true
  · simp only [Bool.and_eq_true, beq_iff_eq] at hA
    obtain ⟨⟨⟨⟨⟨⟨⟨⟨⟨⟨⟨h0, h1⟩, h2⟩, h3⟩, h4⟩, h5⟩, -⟩, -⟩, -⟩, -⟩, -⟩, -⟩ := hA
    simp [h0, h1, h2, h3, h4, h5]
  · rw [if_neg hA]
    by_cases hB :
        (Reverb.commByte comm 0 == 109 && Reverb.commByte comm 1 == 105 &&
         Reverb.commByte comm 2 == 110 && Reverb.commByte comm 3 == 105 &&
         Reverb.commByte comm 4 == 111) = true
    · rw [if_pos hB, hB, Bool.true_and]
    · rw [if_neg hB]
      cases hBB : (Reverb.commByte comm 0 == 109 && Reverb.commByte comm 1 == 105 &&
          Reverb.commByte comm 2 == 110 && Reverb.commByte comm 3 == 105 &&
          Reverb.commByte comm 4 == 111) with
      | false => simp
      | true => exact absurd hBB hB

/-- C1 amended: in minio_tracer.bpf.c, is_target holds iff comm begins with
the five bytes of minio followed by NUL or a space; any accepted comm differs
from the tracer's own binary name; and the by-name classifier of the
configurable tracer accepts the tracer name minio_tracer itself (it performs
a plain substring scan with no self-exclusion). -/
theorem C1_amended_theorem :
    (∀ comm : List Nat,
      MinioTracer.is_minio_process comm =
        ((Reverb.commByte comm 0 == 109 && Reverb.commByte comm 1 == 105 &&
          Reverb.commByte comm 2 == 110 && Reverb.commByte comm 3 == 105 &&
          Reverb.commByte comm 4 == 111) &&
         (Reverb.commByte comm 5 == 0 || Reverb.commByte comm 5 == 32))) ∧
    (∀ comm : List Nat, MinioTracer.is_minio_process comm = true →
      SpecModel.matches_tracer_name comm = false) ∧
    ByNameTracer.is_minio_process (some ⟨1, 1, 1, 0⟩) []
      [109, 105, 110, 105, 111, 95, 116, 114, 97, 99, 101, 114] 0 = true := by
  refine ⟨is_minio_process_eq, ?_, by decide⟩
  intro comm h
  rw [is_minio_process_eq] at h
  simp only [Bool.and_eq_true, Bool.or_eq_true, beq_iff_eq] at h
  obtain ⟨-, h5⟩ := h
  by_contra hcon
  have htr : SpecModel.matches_tracer_name comm = true := by
    cases hh : SpecModel.matches_tracer_name comm with
    | false => exact absurd hh hcon
    | true => rfl
  have h95 : Reverb.commByte comm 5 = 95 := by
    unfold SpecModel.matches_tracer_name at htr
    rw [List.all_eq_true] at htr
    have := htr 5 (by decide)
    simpa [Reverb.commByte] using this
  rcases h5 with h5 | h5 <;> rw [h95] at h5 <;> simp at h5

/-- C1 amended witness: the comm minio (accepted by the classifier) is not
the tracer's own binary name. -/
theorem C1_amended_witness :
    SpecModel.matches_tracer_name [109, 105, 110, 105, 111] = false :=
  C1_amended_theorem.2.1 [109, 105, 110, 105, 111] (by decide)

/-- C2: whenever an application-layer entry probe fires on a target task and
creates a new request context (no existing context, or an existing one with a
zero parent id), the emitted event's request id is
(pid_tgid shifted left by 32, taken modulo 2^64) or-ed with the low 32 bits
of the probe's nanosecond timestamp - for both the write and the read
probe. -/
theorem C2_theorem (st : MinioTracer.KState) (pid_tgid ts_id ts_ctx count : Nat)
    (comm : List Nat) (htarget : MinioTracer.is_minio_process comm = true)
    (hctx : ∀ ex, Reverb.mapLookup st.request_tracking pid_tgid = some ex →
      ex.parent_request_id = 0) :
    ((MinioTracer.trace_minio_write st pid_tgid ts_id ts_ctx count comm true).1.map
        MinioTracer.Event.request_id) =
      some (((pid_tgid <<< 32) % 2 ^ 64) ||| (ts_id % 2 ^ 32)) ∧
    ((MinioTracer.trace_minio_read st pid_tgid ts_id ts_ctx count comm true).1.map
        MinioTracer.Event.request_id) =
      some (((pid_tgid <<< 32) % 2 ^ 64) ||| (ts_id % 2 ^ 32)) := by
  unfold MinioTracer.trace_minio_write MinioTracer.trace_minio_read
  rw [htarget]
  cases hex : Reverb.mapLookup st.request_tracking pid_tgid with
  | none => simp [MinioTracer.generate_request_id]
  | some ex =>
    have hpar : ex.parent_request_id = 0 := hctx ex hex
    simp [hpar, MinioTracer.generate_request_id]

/-- C2 witness: a concrete firing on an empty context table. -/
theorem C2_witness :
    ((MinioTracer.trace_minio_write ⟨[], [], []⟩ 5 7 9 100 [109, 105, 110, 105, 111] true).1.map
        MinioTracer.Event.request_id) =
      some (((5 <<< 32) % 2 ^ 64) ||| (7 % 2 ^ 32)) :=
  (C2_theorem ⟨[], [], []⟩ 5 7 9 100 [109, 105, 110, 105, 111] (by decide)
    (by intro ex h; simp [Reverb.mapLookup] at h)).1

/-- C3 counterexample: the very first application-layer write on a target
task emits an event with branch_id = 0 and branch_count = 0 (the probe never
writes the event's branch_count field), so branch_id is not strictly below
branch_count. -/
theorem C3_counterexample :
    ((MinioTracer.trace_minio_write ⟨[], [], []⟩ 5 7 9 100 [109, 105, 110, 105, 111] true).1.map
        (fun ev => (ev.branch_id, ev.branch_count))) = some (0, 0) ∧
    ((MinioTracer.trace_minio_write ⟨[], [], []⟩ 5 7 9 100 [109, 105, 110, 105, 111] true).1.map
        (fun ev => decide (ev.branch_id < ev.branch_count))) = some false := by
  decide

/-- C3 amended: the OS-layer VFS probes do satisfy branch_id < branch_count
on the events they emit (they record the old context branch count as
branch_id and the incremented count as branch_count), for the write probe
always and for the read probe whenever the freshly keyed branch record is not
already present, as long as the 32-bit branch counter does not wrap;
application-layer, filesystem and device events instead leave the event's
branch_count at zero, so the claimed inequality fails for them. -/
theorem C3_amended_theorem :
    (∀ (st : MinioTracer.KState) (pid_tgid ts1 ts2 ts3 count : Nat)
      (file : Option MinioTracer.FileInfo) (comm : List Nat)
      (ctx : MinioTracer.RequestContext),
      MinioTracer.is_minio_process comm = true →
      Reverb.mapLookup st.request_tracking pid_tgid = some ctx →
      ctx.branch_count + 1 < 2 ^ 32 →
      ((MinioTracer.trace_vfs_write_correlated st pid_tgid ts1 ts2 ts3 file count comm true).1.map
          (fun ev => decide (ev.branch_id < ev.branch_count))) = some true) ∧
    (∀ (st : MinioTracer.KState) (pid_tgid ts1 ts2 ts3 count : Nat)
      (file : Option MinioTracer.FileInfo) (comm : List Nat)
      (ctx : MinioTracer.RequestContext),
      MinioTracer.is_minio_process comm = true →
      Reverb.mapLookup st.request_tracking pid_tgid = some ctx →
      Reverb.mapLookup st.request_branches ((pid_tgid ^^^ ts1) % 2 ^ 64) = none →
      ctx.branch_count + 1 < 2 ^ 32 →
      ((MinioTracer.trace_vfs_read_correlated st pid_tgid ts1 ts2 ts3 file count comm true).1.map
          (fun ev => decide (ev.branch_id < ev.branch_count))) = some true) := by
  constructor
  · intro st pid_tgid ts1 ts2 ts3 count file comm ctx htarget hctx hlt
    unfold MinioTracer.trace_vfs_write_correlated
    rw [htarget]
    have h32 : (2 : Nat) ^ 32 = 4294967296 := by norm_num
    rw [h32] at hlt
    simp only [Bool.not_true, Bool.false_eq_true, if_false, hctx]
    simp [Nat.mod_eq_of_lt hlt, Nat.lt_succ_self]
  · intro st pid_tgid ts1 ts2 ts3 count file comm ctx htarget hctx hbr hlt
    unfold MinioTracer.trace_vfs_read_correlated
    rw [htarget]
    have h32 : (2 : Nat) ^ 32 = 4294967296 := by norm_num
    rw [h32] at hlt
    simp only [Bool.not_true, Bool.false_eq_true, if_false, hctx, hbr]
    simp [Nat.mod_eq_of_lt hlt, Nat.lt_succ_self]

/-- C3 amended witness: a concrete VFS write with a live context. -/
theorem C3_amended_witness :
    ((MinioTracer.trace_vfs_write_correlated Examples.stA
        5 11 12 13 none 100 [109, 105, 110, 105, 111] true).1.map
      (fun ev => decide (ev.branch_id < ev.branch_count))) = some true :=
  C3_amended_theorem.1 Examples.stA 5 11 12 13 100 none [109, 105, 110, 105, 111]
    Examples.ctxA (by decide) (by decide) (by decide)

/-- C4: every event emitted by the submit_bio probe or the bio_endio probe
carries is_journal exactly when its size (the bio's byte size) is at most
8192; events larger than 8192 bytes have the flag clear. -/
theorem C4_theorem :
    (∀ (st : MinioTracer.KState) (pid_tgid ts_ev ts_start : Nat) (comm : List Nat)
      (bio : Option MinioTracer.Bio) (reserveOk : Bool),
      Option.all (fun ev => ev.is_journal == decide (ev.size ≤ 8192))
        (MinioTracer.trace_bio_submit_correlated st pid_tgid ts_ev ts_start comm bio
          reserveOk).1 = true) ∧
    (∀ (st : MinioTracer.KState) (bio : Option MinioTracer.Bio) (ts_lat ts_ev : Nat)
      (reserveOk : Bool),
      Option.all (fun ev => ev.is_journal == decide (ev.size ≤ 8192))
        (MinioTracer.trace_bio_complete_correlated st bio ts_lat ts_ev reserveOk).1
        = true) := by
  constructor
  · intro st pid_tgid ts_ev ts_start comm bio reserveOk
    unfold MinioTracer.trace_bio_submit_correlated
    cases hm : MinioTracer.is_minio_process comm
    · simp [Option.all]
    · cases bio with
      | none => simp [Option.all]
      | some b =>
        cases reserveOk
        · simp [Option.all]
        · cases hl : Reverb.mapLookup st.request_tracking pid_tgid <;>
            simp [hl, Option.all]
  · intro st bio ts_lat ts_ev reserveOk
    unfold MinioTracer.trace_bio_complete_correlated
    cases bio with
    | none => simp [Option.all]
    | some b =>
      cases hl : Reverb.mapLookup st.io_start_times b.addr
      · simp [hl, Option.all]
      · cases reserveOk <;> simp [hl, Option.all]

/-- C5 counterexample: with an empty request-context table, the correlated
VFS read probe of minio_tracer.bpf.c suppresses its event entirely (the ring
reservation would have succeeded and the task is a target), instead of
emitting it with request_id zero. -/
theorem C5_counterexample :
    MinioTracer.is_minio_process [109, 105, 110, 105, 111] = true ∧
    Reverb.mapLookup (MinioTracer.KState.mk [] [] []).request_tracking 5 = none ∧
    (MinioTracer.trace_vfs_read_correlated ⟨[], [], []⟩ 5 1 2 3 (some ⟨some 42⟩) 100
        [109, 105, 110, 105, 111] true).1 = none := by
  decide

/-- C5 amended: the fixed tracer's VFS read probe and the correlated fsync
and submit_bio probes do emit with request_id zero when the context lookup
fails, but the correlated VFS read/write probes return without emitting in
that situation. -/
theorem C5_amended_theorem :
    (∀ (st : FixedTracer.KState) (pid_tgid ts_ev count : Nat)
      (file : Option MinioTracer.FileInfo) (comm : List Nat),
      Reverb.mapLookup st.request_tracking pid_tgid = none →
      ((FixedTracer.trace_vfs_read st pid_tgid ts_ev file count comm true).1.map
        FixedTracer.Event.request_id) = some 0) ∧
    (∀ (st : MinioTracer.KState) (pid_tgid ts_ev : Nat) (comm : List Nat),
      MinioTracer.is_minio_process comm = true →
      Reverb.mapLookup st.request_tracking pid_tgid = none →
      ((MinioTracer.trace_fs_sync_correlated st pid_tgid ts_ev comm true).1.map
        MinioTracer.Event.request_id) = some 0) ∧
    (∀ (st : MinioTracer.KState) (pid_tgid ts_ev ts_start : Nat) (comm : List Nat)
      (b : MinioTracer.Bio),
      MinioTracer.is_minio_process comm = true →
      Reverb.mapLookup st.request_tracking pid_tgid = none →
      ((MinioTracer.trace_bio_submit_correlated st pid_tgid ts_ev ts_start comm (some b)
          true).1.map MinioTracer.Event.request_id) = some 0) ∧
    (∀ (st : MinioTracer.KState) (pid_tgid ts1 ts2 ts3 count : Nat)
      (file : Option MinioTracer.FileInfo) (comm : List Nat),
      Reverb.mapLookup st.request_tracking pid_tgid = none →
      (MinioTracer.trace_vfs_read_correlated st pid_tgid ts1 ts2 ts3 file count comm
        true).1 = none) := by
  refine ⟨?_, ?_, ?_, ?_⟩
  · intro st pid_tgid ts_ev count file comm h
    unfold FixedTracer.trace_vfs_read
    simp [h, FixedTracer.init_event]
  · intro st pid_tgid ts_ev comm htarget h
    unfold MinioTracer.trace_fs_sync_correlated
    rw [htarget]
    simp [h, MinioTracer.init_event]
  · intro st pid_tgid ts_ev ts_start comm b htarget h
    unfold MinioTracer.trace_bio_submit_correlated
    rw [htarget]
    simp [h, MinioTracer.init_event]
  · intro st pid_tgid ts1 ts2 ts3 count file comm h
    unfold MinioTracer.trace_vfs_read_correlated
    cases hm : MinioTracer.is_minio_process comm <;> simp [h]

/-- C5 amended witness: a concrete fixed-tracer VFS read with an empty
table. -/
theorem C5_amended_witness :
    ((FixedTracer.trace_vfs_read ⟨[], []⟩ 5 3 none 100 [] true).1.map
      FixedTracer.Event.request_id) = some 0 :=
  C5_amended_theorem.1 ⟨[], []⟩ 5 3 100 none [] (by decide)

/-- C8 counterexample: a final state with 100 application bytes, zero device
bytes and 4096 filesystem bytes prints a headline of 4096 / 100, not
device_bytes / application_bytes = 0. -/
theorem C8_counterexample :
    0 < (Examples.statsFsOnly 1).total_bytes ∧
    MultiConsumer.headline_amplification Examples.statsFsOnly = some (1024 / 25 : ℚ) ∧
    MultiConsumer.headline_amplification Examples.statsFsOnly ≠
      some (((Examples.statsFsOnly 5).total_bytes : ℚ) /
        ((Examples.statsFsOnly 1).total_bytes : ℚ)) := by
  refine ⟨by decide, ?_, ?_⟩ <;>
    norm_num [Examples.statsFsOnly, MultiConsumer.headline_amplification,
      MultiConsumer.final_bytes, MultiConsumer.LayerStats.zero]

/-- C8 amended: the headline equals device bytes over application bytes
whenever both are positive; with zero device bytes the printer falls back to
filesystem bytes and then to OS aligned bytes. -/
theorem C8_amended_theorem (stats : Nat → MultiConsumer.LayerStats)
    (happ : 0 < (stats 1).total_bytes) (hdev : 0 < (stats 5).total_bytes) :
    MultiConsumer.headline_amplification stats =
      some (((stats 5).total_bytes : ℚ) / ((stats 1).total_bytes : ℚ)) := by
  unfold MultiConsumer.headline_amplification MultiConsumer.final_bytes
  have h5 : ((stats 5).total_bytes == 0) = false := by
    simp [Nat.pos_iff_ne_zero.mp hdev]
  simp [h5, happ, hdev]

/-- C8 amended witness: 100 application bytes and 200 device bytes. -/
theorem C8_amended_witness :
    MultiConsumer.headline_amplification Examples.statsDev =
      some (((Examples.statsDev 5).total_bytes : ℚ) /
        ((Examples.statsDev 1).total_bytes : ℚ)) :=
  C8_amended_theorem Examples.statsDev (by decide) (by decide)

/-- C10: whenever the bio timing table holds a record for the completing bio,
the bio_endio probe removes it, both when the ring reservation succeeds and
when it fails - in both tracers. -/
theorem C10_theorem :
    (∀ (st : MinioTracer.KState) (b : MinioTracer.Bio) (ts_lat ts_ev : Nat)
      (reserveOk : Bool) (t0 : Nat),
      Reverb.mapLookup st.io_start_times b.addr = some t0 →
      Reverb.mapLookup
        ((MinioTracer.trace_bio_complete_correlated st (some b) ts_lat ts_ev
          reserveOk).2).io_start_times b.addr = none) ∧
    (∀ (st : FixedTracer.KState) (b : MinioTracer.Bio) (ts_lat ts_ev : Nat)
      (reserveOk : Bool) (t0 : Nat),
      Reverb.mapLookup st.io_start_times b.addr = some t0 →
      Reverb.mapLookup
        ((FixedTracer.trace_bio_complete st (some b) ts_lat ts_ev
          reserveOk).2).io_start_times b.addr = none) := by
  constructor
  · intro st b ts_lat ts_ev reserveOk t0 h
    unfold MinioTracer.trace_bio_complete_correlated
    dsimp only
    rw [h]
    cases reserveOk <;> simp [Reverb.mapLookup_mapDelete_self]
  · intro st b ts_lat ts_ev reserveOk t0 h
    unfold FixedTracer.trace_bio_complete
    dsimp only
    rw [h]
    cases reserveOk <;> simp [Reverb.mapLookup_mapDelete_self]

/-- C10 witness: a concrete completion with a live timing record. -/
theorem C10_witness :
    Reverb.mapLookup
      ((MinioTracer.trace_bio_complete_correlated ⟨[], [(7, 50)], []⟩
        (some ⟨7, 4096, 0, none⟩) 60 61 true).2).io_start_times 7 = none :=
  C10_theorem.1 ⟨[], [(7, 50)], []⟩ ⟨7, 4096, 0, none⟩ 60 61 true 50 (by decide)

theorem lgetD_set_self {α : Type} (l : List α) (i : Nat) (y d : α)
    (h : i < l.length) : (l.set i y).getD i d = y := by
  induction l generalizing i with
  | nil => simp at h
  | cons a rest ih =>
    cases i with
    | zero => rfl
    | succ j =>
      simp only [List.set, List.getD, List.get?]
      have := ih j (by simpa using h)
      simpa [List.getD] using this

theorem lgetD_set_ne {α : Type} (l : List α) (i j : Nat) (y d : α)
    (h : j ≠ i) : (l.set i y).getD j d = l.getD j d := by
  induction l generalizing i j with
  | nil => rfl
  | cons a rest ih =>
    cases i with
    | zero =>
      cases j with
      | zero => exact absurd rfl h
      | succ jj => rfl
    | succ ii =>
      cases j with
      | zero => rfl
      | succ jj =>
        simp only [List.set, List.getD, List.get?]
        have := ih ii jj (fun hc => h (by rw [hc]))
        simpa [List.getD] using this

theorem lgetD_append_lt {α : Type} (l : List α) (j : Nat) (y d : α)
    (h : j < l.length) : (l ++ [y]).getD j d = l.getD j d := by
  induction l generalizing j with
  | nil => simp at h
  | cons a rest ih =>
    cases j with
    | zero => rfl
    | succ jj =>
      simp only [List.cons_append, List.getD, List.get?]
      have := ih jj (by simpa using h)
      simpa [List.getD] using this

theorem lgetD_append_len {α : Type} (l : List α) (y d : α) :
    (l ++ [y]).getD l.length d = y := by
  induction l with
  | nil => rfl
  | cons a rest ih =>
    simpa [List.getD] using ih

theorem lset_append_len {α : Type} (l : List α) (y z : α) :
    (l ++ [y]).set l.length z = l ++ [z] := by
  induction l with
  | nil => rfl
  | cons a rest ih =>
    simpa [List.set] using ih

theorem findRequestIdx_some (reqs : List MinioConsumer.Flow) (id i : Nat)
    (h : MinioConsumer.findRequestIdx reqs id = some i) :
    i < reqs.length ∧ (reqs.getD i MinioConsumer.Flow.zero).request_id = id := by
  induction reqs generalizing i with
  | nil => simp [MinioConsumer.findRequestIdx] at h
  | cons r rest ih =>
    by_cases hr : r.request_id = id
    · simp [MinioConsumer.findRequestIdx, hr] at h
      subst h
      exact ⟨Nat.succ_pos _, hr⟩
    · simp only [MinioConsumer.findRequestIdx, beq_iff_eq, hr, if_false] at h
      rcases Option.map_eq_some'.mp h with ⟨i', hi', rfl⟩
      obtain ⟨hlt, hid⟩ := ih i' hi'
      exact ⟨by simpa using Nat.succ_lt_succ hlt, by simpa [List.getD] using hid⟩

theorem findRequestIdx_none (reqs : List MinioConsumer.Flow) (id : Nat)
    (h : MinioConsumer.findRequestIdx reqs id = none) :
    ∀ i, i < reqs.length → (reqs.getD i MinioConsumer.Flow.zero).request_id ≠ id := by
  induction reqs with
  | nil => intro i hi; simp at hi
  | cons r rest ih =>
    by_cases hr : r.request_id = id
    · simp [MinioConsumer.findRequestIdx, hr] at h
    · simp only [MinioConsumer.findRequestIdx, beq_iff_eq, hr, if_false,
        Option.map_eq_none'] at h
      intro i hi
      cases i with
      | zero => simpa [List.getD] using hr
      | succ j =>
        have := ih h j (by simpa using hi)
        simpa [List.getD] using this

theorem findRequestIdx_set_same_id (reqs : List MinioConsumer.Flow)
    (i : Nat) (y : MinioConsumer.Flow) (id : Nat)
    (hid : y.request_id = (reqs.getD i MinioConsumer.Flow.zero).request_id) :
    MinioConsumer.findRequestIdx (reqs.set i y) id =
      MinioConsumer.findRequestIdx reqs id := by
  induction reqs generalizing i with
  | nil => rfl
  | cons r rest ih =>
    cases i with
    | zero =>
      simp only [List.getD, List.get?, Option.getD_some] at hid
      simp [MinioConsumer.findRequestIdx, List.set, hid]
    | succ j =>
      simp only [List.set, MinioConsumer.findRequestIdx]
      have := ih j (by simpa [List.getD] using hid)
      rw [this]

theorem findRequestIdx_append_none (reqs : List MinioConsumer.Flow)
    (y : MinioConsumer.Flow) (id : Nat)
    (h : MinioConsumer.findRequestIdx reqs id = none) :
    MinioConsumer.findRequestIdx (reqs ++ [y]) id =
      if y.request_id == id then some reqs.length else none := by
  induction reqs with
  | nil =>
    by_cases hy : y.request_id = id <;> simp [MinioConsumer.findRequestIdx, hy]
  | cons r rest ih =>
    by_cases hr : r.request_id = id
    · simp [MinioConsumer.findRequestIdx, hr] at h
    · simp only [MinioConsumer.findRequestIdx, beq_iff_eq, hr, if_false,
        Option.map_eq_none'] at h
      simp only [List.cons_append, MinioConsumer.findRequestIdx, beq_iff_eq, hr, if_false,
        List.append_eq]
      rw [ih h]
      by_cases hy : y.request_id = id <;> simp [hy]

theorem findRequestIdx_append_some (reqs : List MinioConsumer.Flow)
    (y : MinioConsumer.Flow) (id i : Nat)
    (h : MinioConsumer.findRequestIdx reqs id = some i) :
    MinioConsumer.findRequestIdx (reqs ++ [y]) id = some i := by
  induction reqs generalizing i with
  | nil => simp [MinioConsumer.findRequestIdx] at h
  | cons r rest ih =>
    by_cases hr : r.request_id = id
    · simp [MinioConsumer.findRequestIdx, hr] at h ⊢
      exact h
    · simp only [MinioConsumer.findRequestIdx, beq_iff_eq, hr, if_false,
        List.append_eq] at h ⊢
      rcases Option.map_eq_some'.mp h with ⟨i', hi', rfl⟩
      rw [ih i' hi']
      rfl

theorem table_step_found (reqs : List MinioConsumer.Flow) (x : Nat)
    (g : MinioConsumer.Flow → MinioConsumer.Flow) (i : Nat)
    (h : MinioConsumer.findRequestIdx reqs x = some i) :
    MinioConsumer.table_step reqs x g =
      reqs.set i (g (reqs.getD i MinioConsumer.Flow.zero)) := by
  unfold MinioConsumer.table_step MinioConsumer.find_or_create_request
  rw [h]

theorem table_step_create (reqs : List MinioConsumer.Flow) (x : Nat)
    (g : MinioConsumer.Flow → MinioConsumer.Flow)
    (h : MinioConsumer.findRequestIdx reqs x = none)
    (hroom : reqs.length < MinioConsumer.MAX_REQUESTS) :
    MinioConsumer.table_step reqs x g = reqs ++ [g (MinioConsumer.blankFlow x)] := by
  unfold MinioConsumer.table_step MinioConsumer.find_or_create_request
  rw [h]
  rw [if_pos hroom]
  simp only
  rw [lgetD_append_len, lset_append_len]

theorem table_step_full (reqs : List MinioConsumer.Flow) (x : Nat)
    (g : MinioConsumer.Flow → MinioConsumer.Flow)
    (h : MinioConsumer.findRequestIdx reqs x = none)
    (hfull : ¬ reqs.length < MinioConsumer.MAX_REQUESTS) :
    MinioConsumer.table_step reqs x g = reqs := by
  unfold MinioConsumer.table_step MinioConsumer.find_or_create_request
  rw [h]
  rw [if_neg hfull]

theorem table_step_length_le (reqs : List MinioConsumer.Flow) (x : Nat)
    (g : MinioConsumer.Flow → MinioConsumer.Flow)
    (h : reqs.length ≤ MinioConsumer.MAX_REQUESTS) :
    (MinioConsumer.table_step reqs x g).length ≤ MinioConsumer.MAX_REQUESTS := by
  cases hf : MinioConsumer.findRequestIdx reqs x with
  | some i => rw [table_step_found reqs x g i hf]; simpa using h
  | none =>
    by_cases hroom : reqs.length < MinioConsumer.MAX_REQUESTS
    · rw [table_step_create reqs x g hf hroom]
      simpa using hroom
    · rw [table_step_full reqs x g hf hroom]
      exact h

theorem update_flow_common_request_id (e : MinioTracer.Event)
    (f : MinioConsumer.Flow) :
    (MinioConsumer.update_flow_common e f).request_id = f.request_id := by
  unfold MinioConsumer.update_flow_common
  dsimp only
  split_ifs <;> rfl

theorem update_flow_common_completed (e : MinioTracer.Event)
    (f : MinioConsumer.Flow) :
    (MinioConsumer.update_flow_common e f).completed_branches =
      f.completed_branches := by
  unfold MinioConsumer.update_flow_common
  dsimp only
  split_ifs <;> rfl

theorem update_flow_layer_request_id (e : MinioTracer.Event)
    (f : MinioConsumer.Flow) :
    (MinioConsumer.update_flow_layer e f).request_id = f.request_id := by
  unfold MinioConsumer.update_flow_layer
  split <;> dsimp only <;> split_ifs <;> rfl

theorem update_flow_layer_completed (e : MinioTracer.Event)
    (f : MinioConsumer.Flow) :
    (MinioConsumer.update_flow_layer e f).completed_branches =
      f.completed_branches := by
  unfold MinioConsumer.update_flow_layer
  split <;> dsimp only <;> split_ifs <;> rfl

theorem update_flow_fields_request_id (e : MinioTracer.Event)
    (f : MinioConsumer.Flow) :
    (MinioConsumer.update_flow_fields e f).request_id = f.request_id := by
  unfold MinioConsumer.update_flow_fields
  rw [update_flow_layer_request_id, update_flow_common_request_id]

theorem update_flow_fields_completed (e : MinioTracer.Event)
    (f : MinioConsumer.Flow) :
    (MinioConsumer.update_flow_fields e f).completed_branches =
      f.completed_branches := by
  unfold MinioConsumer.update_flow_fields
  rw [update_flow_layer_completed, update_flow_common_completed]

theorem inc_completed_request_id (f : MinioConsumer.Flow) :
    (MinioConsumer.inc_completed f).request_id = f.request_id := rfl

theorem completions_for_append (id : Nat) (es : List MinioTracer.Event)
    (e : MinioTracer.Event) :
    MinioConsumer.completions_for id (es ++ [e]) =
      MinioConsumer.completions_for id es +
        (if (e.event_type == 502 && e.layer == 5 && e.request_id == id) = true
          then 1 else 0) := by
  unfold MinioConsumer.completions_for
  rw [List.filter_append, List.length_append]
  by_cases hc : (e.event_type == 502 && e.layer == 5 && e.request_id == id) = true <;>
    simp [List.filter, hc]

theorem completions_for_eq_zero (id : Nat) (es : List MinioTracer.Event)
    (h : ∀ ev ∈ es, ev.request_id ≠ id) :
    MinioConsumer.completions_for id es = 0 := by
  unfold MinioConsumer.completions_for
  rw [List.length_eq_zero, List.filter_eq_nil]
  intro ev hev
  simp [h ev hev]

theorem lgetD_set_id (reqs : List MinioConsumer.Flow) (i : Nat)
    (y : MinioConsumer.Flow)
    (hid : y.request_id = (reqs.getD i MinioConsumer.Flow.zero).request_id)
    (j : Nat) (hj : j < reqs.length) :
    ((reqs.set i y).getD j MinioConsumer.Flow.zero).request_id =
      (reqs.getD j MinioConsumer.Flow.zero).request_id := by
  rcases eq_or_ne j i with rfl | hji
  · rw [lgetD_set_self reqs j y _ hj, hid]
  · rw [lgetD_set_ne reqs i j y _ hji]

theorem idsDistinct_set (reqs : List MinioConsumer.Flow) (i : Nat)
    (y : MinioConsumer.Flow)
    (hid : y.request_id = (reqs.getD i MinioConsumer.Flow.zero).request_id)
    (h : MinioConsumer.IdsDistinct reqs) :
    MinioConsumer.IdsDistinct (reqs.set i y) := by
  intro a b ha hb hne
  rw [List.length_set] at ha hb
  rw [lgetD_set_id reqs i y hid a ha, lgetD_set_id reqs i y hid b hb]
  exact h a b ha hb hne

/-- C6 counterexample: an event with request_id = 0 arriving at the
minio_tracer.c consumer does create a flow record - the record keyed by id 0
appears and accumulates the event's bytes. -/
theorem C6_counterexample :
    Examples.osReadZeroId.request_id = 0 ∧
    (MinioConsumer.handle_event true [] Examples.osReadZeroId).length = 1 ∧
    ((MinioConsumer.handle_event true [] Examples.osReadZeroId).getD 0
      MinioConsumer.Flow.zero).request_id = 0 ∧
    ((MinioConsumer.handle_event true [] Examples.osReadZeroId).getD 0
      MinioConsumer.Flow.zero).os_bytes = 4096 := by
  decide

/-- C6 amended: in multilayer_io_tracer.c, an event with request_id = 0
leaves the request table untouched while (for layers up to 5) the per-layer
counters are all advanced; the minio_tracer.c consumer, by contrast, creates
or updates a flow record keyed 0 for such events. -/
theorem C6_amended_theorem (cm : Bool) (u : MultiConsumer.UState)
    (e : FixedTracer.Event) (hz : e.request_id = 0) :
    (MultiConsumer.update_stats cm u e).requests = u.requests ∧
    (e.layer ≤ 5 →
      ((MultiConsumer.update_stats cm u e).stats e.layer).total_events
          = (u.stats e.layer).total_events + 1 ∧
      ((MultiConsumer.update_stats cm u e).stats e.layer).total_bytes
          = (u.stats e.layer).total_bytes + e.size ∧
      ((MultiConsumer.update_stats cm u e).stats e.layer).aligned_bytes
          = (u.stats e.layer).aligned_bytes +
              (if e.aligned_size != 0 then e.aligned_size else e.size) ∧
      ((MultiConsumer.update_stats cm u e).stats e.layer).metadata_ops
          = (u.stats e.layer).metadata_ops + (if e.is_metadata then 1 else 0) ∧
      ((MultiConsumer.update_stats cm u e).stats e.layer).journal_ops
          = (u.stats e.layer).journal_ops + (if e.is_journal then 1 else 0) ∧
      ((MultiConsumer.update_stats cm u e).stats e.layer).cache_hits
          = (u.stats e.layer).cache_hits + (if e.cache_hit then 1 else 0)) := by
  unfold MultiConsumer.update_stats
  by_cases hl : 5 < e.layer
  · rw [if_pos hl]
    exact ⟨by trivial, fun hle => absurd hl (by omega)⟩
  · rw [if_neg hl]
    have hz' : (e.request_id != 0) = false := by simp [hz]
    simp only [hz', Bool.and_false, Bool.false_eq_true, if_false]
    exact ⟨by trivial, fun _ => by simp⟩

/-- C6 amended witness: a zero-id sync event against the empty state. -/
theorem C6_amended_witness :
    (MultiConsumer.update_stats true Examples.u0 Examples.fsEventZeroId).requests
      = Examples.u0.requests :=
  (C6_amended_theorem true Examples.u0 Examples.fsEventZeroId rfl).1

theorem findRequestIdx_replicate_ne (n : Nat) (r : MinioConsumer.Flow)
    (id : Nat) (h : r.request_id ≠ id) :
    MinioConsumer.findRequestIdx (List.replicate n r) id = none := by
  induction n with
  | zero => rfl
  | succ m ih =>
    rw [List.replicate_succ]
    simp [MinioConsumer.findRequestIdx, h, ih]

theorem find_or_create_request_none_of_full (reqs : List MinioConsumer.Flow)
    (id : Nat) (h1 : MinioConsumer.findRequestIdx reqs id = none)
    (h2 : reqs.length = MinioConsumer.MAX_REQUESTS) :
    MinioConsumer.find_or_create_request reqs id = none := by
  unfold MinioConsumer.find_or_create_request
  rw [h1, h2, if_neg (lt_irrefl _)]

/-- C7 counterexample: with the flow table full (10,000 records, all keyed
7) an event with the unseen request_id 5 is simply refused: no record is
created and nothing is evicted - find_or_create_request returns NULL. -/
theorem C7_counterexample :
    MinioConsumer.find_or_create_request
      (List.replicate MinioConsumer.MAX_REQUESTS (MinioConsumer.blankFlow 7)) 5
      = none :=
  find_or_create_request_none_of_full _ 5
    (findRequestIdx_replicate_ne MinioConsumer.MAX_REQUESTS
      (MinioConsumer.blankFlow 7) 5 (by decide))
    (List.length_replicate _ _)

/-- C7 amended: the flow table never exceeds 10,000 records (every
handle_event step preserves the bound), and when it is full an event with an
unseen request_id creates no record and evicts none - the lookup simply
fails. -/
theorem C7_amended_theorem :
    (∀ (cm : Bool) (reqs : List MinioConsumer.Flow) (e : MinioTracer.Event),
      reqs.length ≤ MinioConsumer.MAX_REQUESTS →
      (MinioConsumer.handle_event cm reqs e).length ≤ MinioConsumer.MAX_REQUESTS) ∧
    (∀ (reqs : List MinioConsumer.Flow) (id : Nat),
      reqs.length = MinioConsumer.MAX_REQUESTS →
      MinioConsumer.findRequestIdx reqs id = none →
      MinioConsumer.find_or_create_request reqs id = none) := by
  constructor
  · intro cm reqs e h
    unfold MinioConsumer.handle_event
    have h1 : (if cm then MinioConsumer.update_request_flow reqs e else reqs).length
        ≤ MinioConsumer.MAX_REQUESTS := by
      cases cm
      · simpa using h
      · simpa [MinioConsumer.update_request_flow] using
          table_step_length_le reqs e.request_id (MinioConsumer.update_flow_fields e) h
    by_cases hc : (e.event_type == 502 && e.layer == 5) = true
    · simp only [hc, if_true]
      exact table_step_length_le _ _ _ h1
    · simp only [hc, Bool.false_eq_true, if_false]
      exact h1
  · intro reqs id hfull hfind
    exact find_or_create_request_none_of_full reqs id hfind hfull

/-- C7 amended witness: one step from the empty table stays within the
bound. -/
theorem C7_amended_witness :
    (MinioConsumer.handle_event true [] Examples.appPutEvent).length
      ≤ MinioConsumer.MAX_REQUESTS :=
  C7_amended_theorem.1 true [] Examples.appPutEvent (by decide)

theorem idsDistinct_append (reqs : List MinioConsumer.Flow)
    (y : MinioConsumer.Flow) (h : MinioConsumer.IdsDistinct reqs)
    (hfresh : ∀ i, i < reqs.length →
      (reqs.getD i MinioConsumer.Flow.zero).request_id ≠ y.request_id) :
    MinioConsumer.IdsDistinct (reqs ++ [y]) := by
  intro a b ha hb hne
  rw [List.length_append, List.length_singleton] at ha hb
  by_cases haL : a < reqs.length
  · by_cases hbL : b < reqs.length
    · rw [lgetD_append_lt reqs a y _ haL, lgetD_append_lt reqs b y _ hbL]
      exact h a b haL hbL hne
    · have hb' : b = reqs.length := by omega
      subst hb'
      rw [lgetD_append_lt reqs a y _ haL, lgetD_append_len]
      exact hfresh a haL
  · have ha' : a = reqs.length := by omega
    subst ha'
    have hbL : b < reqs.length := by omega
    rw [lgetD_append_lt reqs b y _ hbL, lgetD_append_len]
    exact fun hc => hfresh b hbL hc.symm

theorem completions_self_append (es : List MinioTracer.Event)
    (e : MinioTracer.Event) :
    MinioConsumer.completions_for e.request_id (es ++ [e]) =
      MinioConsumer.completions_for e.request_id es +
        (if (e.event_type == 502 && e.layer == 5) = true then 1 else 0) := by
  rw [completions_for_append]
  congr 1
  by_cases h : (e.event_type == 502 && e.layer == 5) = true <;> simp [h]

theorem completions_other_append (es : List MinioTracer.Event)
    (e : MinioTracer.Event) (id : Nat) (h : id ≠ e.request_id) :
    MinioConsumer.completions_for id (es ++ [e]) =
      MinioConsumer.completions_for id es := by
  rw [completions_for_append]
  have hne : (e.request_id == id) = false := by
    rw [beq_eq_false_iff_ne]
    exact fun hc => h hc.symm
  simp [hne]

theorem findRequestIdx_isSome_of_getD (reqs : List MinioConsumer.Flow)
    (i : Nat) (x : Nat) (hi : i < reqs.length)
    (hid : (reqs.getD i MinioConsumer.Flow.zero).request_id = x) :
    (MinioConsumer.findRequestIdx reqs x).isSome = true := by
  cases hfi : MinioConsumer.findRequestIdx reqs x with
  | some k => rfl
  | none => exact absurd hid (findRequestIdx_none reqs x hfi i hi)

theorem tableInv_set (es : List MinioTracer.Event) (e : MinioTracer.Event)
    (reqs : List MinioConsumer.Flow) (i : Nat) (w : MinioConsumer.Flow)
    (h : MinioConsumer.TableInv es reqs) (hi : i < reqs.length)
    (hidX : (reqs.getD i MinioConsumer.Flow.zero).request_id = e.request_id)
    (hwid : w.request_id = (reqs.getD i MinioConsumer.Flow.zero).request_id)
    (hwc : w.completed_branches =
      MinioConsumer.completions_for e.request_id (es ++ [e]) % 2 ^ 32) :
    MinioConsumer.TableInv (es ++ [e]) (reqs.set i w) := by
  obtain ⟨hlen, hdist, hcomp, hseen⟩ := h
  refine ⟨by rw [List.length_set]; exact hlen,
    idsDistinct_set reqs i w hwid hdist, ?_, ?_⟩
  · intro j hj
    rw [List.length_set] at hj
    rcases eq_or_ne j i with rfl | hji
    · rw [lgetD_set_self reqs j w _ hj, hwid, hidX]
      exact hwc
    · rw [lgetD_set_ne reqs i j w _ hji]
      rw [completions_other_append es e _
        (fun hcon => hdist j i hj hi hji (by rw [hcon, hidX]))]
      exact hcomp j hj
  · intro ev hev
    rcases List.mem_append.mp hev with hin | hsing
    · rcases hseen ev hin with hs | hmax
      · left
        rw [findRequestIdx_set_same_id reqs i w ev.request_id hwid]
        exact hs
      · right
        rw [List.length_set]
        exact hmax
    · have hevE : ev = e := by simpa using hsing
      subst hevE
      left
      rw [findRequestIdx_set_same_id reqs i w ev.request_id hwid]
      exact findRequestIdx_isSome_of_getD reqs i ev.request_id hi hidX

theorem tableInv_append (es : List MinioTracer.Event) (e : MinioTracer.Event)
    (reqs : List MinioConsumer.Flow) (w : MinioConsumer.Flow)
    (h : MinioConsumer.TableInv es reqs)
    (hf : MinioConsumer.findRequestIdx reqs e.request_id = none)
    (hroom : reqs.length < MinioConsumer.MAX_REQUESTS)
    (hwid : w.request_id = e.request_id)
    (hwc : w.completed_branches =
      MinioConsumer.completions_for e.request_id (es ++ [e]) % 2 ^ 32) :
    MinioConsumer.TableInv (es ++ [e]) (reqs ++ [w]) := by
  obtain ⟨hlen, hdist, hcomp, hseen⟩ := h
  have hfresh := findRequestIdx_none reqs e.request_id hf
  refine ⟨?_, ?_, ?_, ?_⟩
  · rw [List.length_append, List.length_singleton]
    omega
  · refine idsDistinct_append reqs w hdist ?_
    intro j hj
    rw [hwid]
    exact hfresh j hj
  · intro j hj
    rw [List.length_append, List.length_singleton] at hj
    by_cases hjl : j < reqs.length
    · rw [lgetD_append_lt reqs j w _ hjl]
      rw [completions_other_append es e _ (hfresh j hjl)]
      exact hcomp j hjl
    · have hj' : j = reqs.length := by omega
      subst hj'
      rw [lgetD_append_len, hwid]
      exact hwc
  · intro ev hev
    rcases List.mem_append.mp hev with hin | hsing
    · rcases hseen ev hin with hs | hmax
      · left
        cases hfi : MinioConsumer.findRequestIdx reqs ev.request_id with
        | none => rw [hfi] at hs; simp at hs
        | some k =>
          rw [findRequestIdx_append_some reqs w ev.request_id k hfi]
          rfl
      · exact absurd hmax (by omega)
    · have hevE : ev = e := by simpa using hsing
      subst hevE
      left
      rw [findRequestIdx_append_none reqs w ev.request_id hf]
      simp [hwid]

theorem tableInv_keep_full (es : List MinioTracer.Event) (e : MinioTracer.Event)
    (reqs : List MinioConsumer.Flow)
    (h : MinioConsumer.TableInv es reqs)
    (hf : MinioConsumer.findRequestIdx reqs e.request_id = none)
    (hmax : reqs.length = MinioConsumer.MAX_REQUESTS) :
    MinioConsumer.TableInv (es ++ [e]) reqs := by
  obtain ⟨hlen, hdist, hcomp, hseen⟩ := h
  have hfresh := findRequestIdx_none reqs e.request_id hf
  refine ⟨hlen, hdist, ?_, ?_⟩
  · intro j hj
    rw [completions_other_append es e _ (hfresh j hj)]
    exact hcomp j hj
  · intro ev hev
    rcases List.mem_append.mp hev with hin | hsing
    · exact hseen ev hin
    · right
      exact hmax

theorem handle_event_true_eq (reqs : List MinioConsumer.Flow)
    (e : MinioTracer.Event) :
    MinioConsumer.handle_event true reqs e =
      (if (e.event_type == 502 && e.layer == 5) = true then
        MinioConsumer.table_step (MinioConsumer.update_request_flow reqs e)
          e.request_id MinioConsumer.inc_completed
      else MinioConsumer.update_request_flow reqs e) := by
  unfold MinioConsumer.handle_event
  rw [if_pos rfl]

theorem handle_event_tableInv (es : List MinioTracer.Event)
    (e : MinioTracer.Event) (reqs : List MinioConsumer.Flow)
    (h : MinioConsumer.TableInv es reqs) :
    MinioConsumer.TableInv (es ++ [e]) (MinioConsumer.handle_event true reqs e) := by
  rw [handle_event_true_eq]
  cases hf : MinioConsumer.findRequestIdx reqs e.request_id with
  | some i =>
    obtain ⟨hi, hid⟩ := findRequestIdx_some reqs e.request_id i hf
    have hupd : MinioConsumer.update_request_flow reqs e =
        reqs.set i (MinioConsumer.update_flow_fields e
          (reqs.getD i MinioConsumer.Flow.zero)) :=
      table_step_found reqs e.request_id _ i hf
    have huid : (MinioConsumer.update_flow_fields e
        (reqs.getD i MinioConsumer.Flow.zero)).request_id =
        (reqs.getD i MinioConsumer.Flow.zero).request_id :=
      update_flow_fields_request_id e _
    by_cases h502 : (e.event_type == 502 && e.layer == 5) = true
    · rw [if_pos h502, hupd]
      have hfind1 : MinioConsumer.findRequestIdx
          (reqs.set i (MinioConsumer.update_flow_fields e
            (reqs.getD i MinioConsumer.Flow.zero))) e.request_id = some i := by
        rw [findRequestIdx_set_same_id reqs i _ e.request_id huid]
        exact hf
      rw [table_step_found _ e.request_id _ i hfind1]
      rw [lgetD_set_self reqs i _ _ hi, List.set_set]
      apply tableInv_set es e reqs i _ h hi hid
      · rw [inc_completed_request_id, huid]
      · show ((MinioConsumer.update_flow_fields e
            (reqs.getD i MinioConsumer.Flow.zero)).completed_branches + 1) % 2 ^ 32 = _
        rw [update_flow_fields_completed, h.2.2.1 i hi, hid,
          completions_self_append es e, if_pos h502]
        have h32 : (2 : Nat) ^ 32 = 4294967296 := by norm_num
        rw [h32]
        omega
    · rw [if_neg h502, hupd]
      apply tableInv_set es e reqs i _ h hi hid
      · exact huid
      · rw [update_flow_fields_completed, h.2.2.1 i hi, hid,
          completions_self_append es e, if_neg h502]
        simp
  | none =>
    by_cases hroom : reqs.length < MinioConsumer.MAX_REQUESTS
    · have hupd : MinioConsumer.update_request_flow reqs e =
          reqs ++ [MinioConsumer.update_flow_fields e
            (MinioConsumer.blankFlow e.request_id)] :=
        table_step_create reqs e.request_id _ hf hroom
      have huid : (MinioConsumer.update_flow_fields e
          (MinioConsumer.blankFlow e.request_id)).request_id = e.request_id := by
        rw [update_flow_fields_request_id]
        rfl
      have hnoprior : ∀ ev ∈ es, ev.request_id ≠ e.request_id := by
        intro ev hev hcon
        rcases h.2.2.2 ev hev with hs | hmax2
        · rw [hcon, hf] at hs
          simp at hs
        · omega
      have hcf0 : MinioConsumer.completions_for e.request_id es = 0 :=
        completions_for_eq_zero e.request_id es hnoprior
      have huc : (MinioConsumer.update_flow_fields e
          (MinioConsumer.blankFlow e.request_id)).completed_branches = 0 := by
        rw [update_flow_fields_completed]
        rfl
      by_cases h502 : (e.event_type == 502 && e.layer == 5) = true
      · rw [if_pos h502, hupd]
        have hfind1 : MinioConsumer.findRequestIdx
            (reqs ++ [MinioConsumer.update_flow_fields e
              (MinioConsumer.blankFlow e.request_id)]) e.request_id
            = some reqs.length := by
          rw [findRequestIdx_append_none reqs _ e.request_id hf]
          simp [huid]
        rw [table_step_found _ e.request_id _ reqs.length hfind1]
        rw [lgetD_append_len, lset_append_len]
        apply tableInv_append es e reqs _ h hf hroom
        · rw [inc_completed_request_id, huid]
        · show ((MinioConsumer.update_flow_fields e
              (MinioConsumer.blankFlow e.request_id)).completed_branches + 1)
              % 2 ^ 32 = _
          rw [huc, completions_self_append es e, if_pos h502, hcf0]
      · rw [if_neg h502, hupd]
        apply tableInv_append es e reqs _ h hf hroom
        · exact huid
        · rw [huc, completions_self_append es e, if_neg h502, hcf0]
          simp
    · have hmax : reqs.length = MinioConsumer.MAX_REQUESTS := by
        have := h.1
        omega
      have hupd : MinioConsumer.update_request_flow reqs e = reqs :=
        table_step_full reqs e.request_id _ hf hroom
      by_cases h502 : (e.event_type == 502 && e.layer == 5) = true
      · rw [if_pos h502, hupd, table_step_full reqs e.request_id _ hf hroom]
        exact tableInv_keep_full es e reqs h hf hmax
      · rw [if_neg h502, hupd]
        exact tableInv_keep_full es e reqs h hf hmax

theorem process_events_tableInv (es : List MinioTracer.Event) :
    MinioConsumer.TableInv es (MinioConsumer.process_events true es) := by
  induction es using List.reverseRecOn with
  | nil =>
    exact ⟨by simp [MinioConsumer.process_events],
      by intro i j hi hj hne; simp [MinioConsumer.process_events] at hi,
      by intro i hi; simp [MinioConsumer.process_events] at hi,
      by intro ev hev; simp at hev⟩
  | append_singleton es e ih =>
    have hp : MinioConsumer.process_events true (es ++ [e]) =
        MinioConsumer.handle_event true (MinioConsumer.process_events true es) e := by
      unfold MinioConsumer.process_events
      rw [List.foldl_append]
      rfl
    rw [hp]
    exact handle_event_tableInv es e _ ih

theorem mem_getD_index {α : Type} (l : List α) (x d : α) (h : x ∈ l) :
    ∃ i, i < l.length ∧ l.getD i d = x := by
  induction l with
  | nil => simp at h
  | cons a rest ih =>
    rcases List.mem_cons.mp h with rfl | hmem
    · exact ⟨0, by simp, rfl⟩
    · obtain ⟨i, hi, hgd⟩ := ih hmem
      exact ⟨i + 1, by simpa using Nat.succ_lt_succ hi, by simpa [List.getD] using hgd⟩

/-- C9 counterexample: processing a single DEV_BIO_COMPLETE delivery from
the empty flow table yields a record with completed_branches = 1 and
total_branches = 0 (completion events carry request_id 0 and branch_count
0), so completed_branches exceeds total_branches. -/
theorem C9_counterexample :
    ((MinioConsumer.handle_event true [] Examples.bioCompleteEvent).getD 0
      MinioConsumer.Flow.zero).completed_branches = 1 ∧
    ((MinioConsumer.handle_event true [] Examples.bioCompleteEvent).getD 0
      MinioConsumer.Flow.zero).total_branches = 0 ∧
    ¬ (∀ f ∈ MinioConsumer.handle_event true [] Examples.bioCompleteEvent,
        f.completed_branches ≤ f.total_branches) := by
  decide

/-- C9 amended: for every flow record held by the correlator after any trace
of deliveries, completed_branches equals the number of DEV_BIO_COMPLETE
deliveries carrying the flow's request id (reduced modulo 2^32); it is
therefore non-negative, but it is not bounded by total_branches. -/
theorem C9_amended_theorem (es : List MinioTracer.Event)
    (f : MinioConsumer.Flow)
    (hf : f ∈ MinioConsumer.process_events true es) :
    f.completed_branches =
      MinioConsumer.completions_for f.request_id es % 2 ^ 32 := by
  obtain ⟨i, hi, hgd⟩ := mem_getD_index _ f MinioConsumer.Flow.zero hf
  have h := (process_events_tableInv es).2.2.1 i hi
  rw [hgd] at h
  exact h

/-- C9 amended witness: the single-completion trace. -/
theorem C9_amended_witness :
    ((MinioConsumer.process_events true [Examples.bioCompleteEventB]).getD 0
        MinioConsumer.Flow.zero).completed_branches =
      MinioConsumer.completions_for
        ((MinioConsumer.process_events true [Examples.bioCompleteEventB]).getD 0
          MinioConsumer.Flow.zero).request_id [Examples.bioCompleteEventB]
        % 2 ^ 32 :=
  C9_amended_theorem [Examples.bioCompleteEventB] _ (by decide)

end Claims
